import Mathlib

/-!
# The `packer` driver (`packer.go`): bootstrap, dispatch and exit

A shallow embedding of the two functions of `packer.go`, `main` and
`loadConfig`, as programs of a small process monad that records every
interaction with the outside (environment variables, files, standard error,
collaborating packages, `os.Exit`) in a trace, and models Go's `defer`:
a deferred call runs when its function returns, and `os.Exit` ends the
process at once without running any deferred call.

Everything the two functions call but do not define (the operating system,
`decodeConfig`, the methods of `config`, `packer.NewEnvironment`, the
environment's `Cli`) is a field of `World`; the theorems quantify over it.
-/

namespace Packer

/-! ## Values -/

/-- A Go `error` value; `notExist` is what `os.IsNotExist` answers for it. -/
structure Error where
  text : String
  notExist : Bool
deriving DecidableEq, Repr

/-- Go `os.IsNotExist`. -/
def IsNotExist (err : Error) : Bool := err.notExist

/-- Go `user.User`, of which only `HomeDir` is read. -/
structure User where
  HomeDir : String
deriving DecidableEq, Repr

/-- Go `packer.FileCache`; a `packer.Cache` interface value is `Option FileCache`, `none` for nil. -/
structure FileCache where
  CacheDir : String
deriving DecidableEq, Repr

/-- A component loader: from a component name to a handle (named by a string) or an error. -/
abbrev Loader := String → Except Error String

/-- Go `packer.ComponentFinder`: the four loader functions. -/
structure ComponentFinder where
  Builder : Loader
  Command : Loader
  Hook : Loader
  Provisioner : Loader

/-- Go `packer.EnvironmentConfig`. -/
structure EnvironmentConfig where
  Cache : Option FileCache
  Commands : List String
  Components : ComponentFinder
  /-- The fields `main` does not assign; they stay as `DefaultEnvironmentConfig` set them. -/
  Other : String

/-- Go `packer.Environment`, of which only the method `Cli` is called:
it returns an exit code and an error (`none` for nil). -/
structure Environment where
  Cli : List String → Int × Option Error

/-- Where `log.SetOutput` sends the log. -/
inductive LogOutput where
  | discard
  | stderr
deriving DecidableEq, Repr

/-- One observable action of the process. -/
inductive Event where
  | getenv (name : String)
  | logSetOutput (dst : LogOutput)
  | gomaxprocs (n : Nat)
  | log (format : String)
  | userCurrent
  | osOpen (path : String)
  | fileClose (path : String)
  | fprintfStderr (format : String) (err : Error)
  | mkdirAll (path : String) (perm : Nat)
  | newEnvironment (envConfig : EnvironmentConfig)
  | setupSignalHandlers
  | cli (args : List String)
  | cleanupClients
  | osExit (code : Int)

/-- Everything `packer.go` calls but does not define. `Cfg` is the type `config`,
declared in another file of the package. -/
structure World (Cfg : Type) where
  /-- Go `os.Getenv`. -/
  getenv : String → String
  /-- Go `os.Args[1:]`. -/
  args : List String
  /-- Go `runtime.NumCPU()`. -/
  numCPU : Nat
  /-- Go `user.Current()`. -/
  userCurrent : Except Error User
  /-- Go `filepath.Join` of two elements. -/
  join : String → String → String
  /-- Go `os.Open`: the content of the file, or the error. -/
  osOpen : String → Except Error String
  /-- Go `os.MkdirAll`: `none` for a nil error. -/
  mkdirAll : String → Nat → Option Error
  /-- The constant `defaultConfig`. -/
  defaultConfig : String
  /-- The zero value of `config` (`var config config`). -/
  zeroConfig : Cfg
  /-- The package function `decodeConfig(r, &config)`: the updated config, or the error. -/
  decodeConfig : String → Cfg → Except Error Cfg
  /-- The method `config.CommandNames`. -/
  CommandNames : Cfg → List String
  /-- The method `config.LoadBuilder`. -/
  LoadBuilder : Cfg → Loader
  /-- The method `config.LoadCommand`. -/
  LoadCommand : Cfg → Loader
  /-- The method `config.LoadHook`. -/
  LoadHook : Cfg → Loader
  /-- The method `config.LoadProvisioner`. -/
  LoadProvisioner : Cfg → Loader
  /-- Go `packer.DefaultEnvironmentConfig()`. -/
  DefaultEnvironmentConfig : EnvironmentConfig
  /-- Go `packer.NewEnvironment`. -/
  NewEnvironment : EnvironmentConfig → Except Error Environment

/-! ## The process monad -/

/-- The state of the running process: the trace so far (oldest event first) and the
deferred calls pending in the function being executed (most recent first). -/
structure ProcState where
  trace : List Event
  defers : List Event

/-- What a computation does: it returns a value, or the process has exited through `os.Exit`. -/
inductive Outcome (α : Type) where
  | ret (a : α) (s : ProcState)
  | exited (s : ProcState)

/-- A computation of the process. -/
def Proc (α : Type) : Type := ProcState → Outcome α

/-- Return a value, nothing else happens. -/
def Proc.pure {α : Type} (a : α) : Proc α := fun s => Outcome.ret a s

/-- Sequencing: after `os.Exit` nothing more runs. -/
def Proc.bind {α β : Type} (m : Proc α) (f : α → Proc β) : Proc β := fun s =>
  match m s with
  | Outcome.ret a s1 => f a s1
  | Outcome.exited s1 => Outcome.exited s1

instance : Monad Proc where
  pure := Proc.pure
  bind := Proc.bind

/-- Record one event. -/
def emit (e : Event) : Proc Unit := fun s =>
  Outcome.ret () { s with trace := s.trace ++ [e] }

/-- Go `defer`: push a call on the pending list of the current function. -/
def deferCall (e : Event) : Proc Unit := fun s =>
  Outcome.ret () { s with defers := e :: s.defers }

/-- Go `os.Exit(code)`: the process ends at once, deferred calls are not run. -/
def osExit (code : Int) : Proc Unit := fun s =>
  Outcome.exited { s with trace := s.trace ++ [Event.osExit code] }

/-- A Go function body: it starts with no deferred call of its own, and when it returns
its deferred calls run, last registered first; the caller's pending calls are untouched. -/
def goFunc {α : Type} (body : Proc α) : Proc α := fun s =>
  match body { trace := s.trace, defers := [] } with
  | Outcome.ret a s1 => Outcome.ret a { trace := s1.trace ++ s1.defers, defers := s.defers }
  | Outcome.exited s1 => Outcome.exited s1

/-- Go `os.Getenv(name)`. -/
def getenv {Cfg : Type} (w : World Cfg) (name : String) : Proc String := do
  emit (Event.getenv name)
  return w.getenv name

/-- Go `user.Current()`. -/
def userCurrent {Cfg : Type} (w : World Cfg) : Proc (Except Error User) := do
  emit Event.userCurrent
  return w.userCurrent

/-- Go `os.Open(path)`. -/
def osOpen {Cfg : Type} (w : World Cfg) (path : String) : Proc (Except Error String) := do
  emit (Event.osOpen path)
  return w.osOpen path

/-- Go `os.MkdirAll(path, perm)`. -/
def mkdirAll {Cfg : Type} (w : World Cfg) (path : String) (perm : Nat) : Proc (Option Error) := do
  emit (Event.mkdirAll path perm)
  return w.mkdirAll path perm

/-- Go `packer.NewEnvironment(envConfig)`. -/
def NewEnvironment {Cfg : Type} (w : World Cfg) (envConfig : EnvironmentConfig) :
    Proc (Except Error Environment) := do
  emit (Event.newEnvironment envConfig)
  return w.NewEnvironment envConfig

/-- Go `env.Cli(args)`. -/
def Cli (env : Environment) (args : List String) : Proc (Int × Option Error) := do
  emit (Event.cli args)
  return env.Cli args

/-! ## `loadConfig` -/

/-- Go `loadConfig`. The Go result `(nil, err)` is `Except.error err` and `(&config, nil)` is
`Except.ok config`. -/
def loadConfig {Cfg : Type} (w : World Cfg) : Proc (Except Error Cfg) := goFunc (do
  match w.decodeConfig w.defaultConfig w.zeroConfig with
  | Except.error err => return Except.error err
  | Except.ok config =>
    let mut mustExist := true
    let mut configFile ← getenv w "PACKER_CONFIG"
    if configFile == "" then
      match ← userCurrent w with
      | Except.error err => return Except.error err
      | Except.ok u =>
        configFile := w.join u.HomeDir ".packerrc"
        mustExist := false
    emit (Event.log "Attempting to open config file: %s")
    match ← osOpen w configFile with
    | Except.error err =>
      if !IsNotExist err then
        return Except.error err
      if mustExist then
        return Except.error err
      emit (Event.log "File doesn't exist, but doesn't need to. Ignoring.")
      return Except.ok config
    | Except.ok f =>
      deferCall (Event.fileClose configFile)
      match w.decodeConfig f config with
      | Except.error err => return Except.error err
      | Except.ok config => return Except.ok config)

/-! ## `main` -/

/-- Go `main`. -/
def main {Cfg : Type} (w : World Cfg) : Proc Unit := goFunc (do
  if (← getenv w "PACKER_LOG") == "" then
    emit (Event.logSetOutput LogOutput.discard)
  else
    emit (Event.logSetOutput LogOutput.stderr)
  if (← getenv w "GOMAXPROCS") == "" then
    emit (Event.gomaxprocs w.numCPU)
  match ← loadConfig w with
  | Except.error err =>
    emit (Event.fprintfStderr "Error loading configuration: \n\n%s\n" err)
    osExit 1
  | Except.ok config =>
    emit (Event.log "Packer config: %+v")
    deferCall Event.cleanupClients
    let mut cache : Option FileCache := none
    let cacheDir ← getenv w "PACKER_CACHE_DIR"
    if cacheDir != "" then
      if let some err ← mkdirAll w cacheDir 0o755 then
        emit (Event.fprintfStderr "Error preparing cache directory: \n\n%s\n" err)
        osExit 1
      emit (Event.log "Setting cache directory: %s")
      cache := some { CacheDir := cacheDir }
    let envConfig : EnvironmentConfig :=
      { w.DefaultEnvironmentConfig with
        Cache := cache
        Commands := w.CommandNames config
        Components :=
          { w.DefaultEnvironmentConfig.Components with
            Builder := w.LoadBuilder config
            Command := w.LoadCommand config
            Hook := w.LoadHook config
            Provisioner := w.LoadProvisioner config } }
    match ← NewEnvironment w envConfig with
    | Except.error err =>
      emit (Event.fprintfStderr "Packer initialization error: \n\n%s\n" err)
      osExit 1
    | Except.ok env =>
      emit Event.setupSignalHandlers
      let (exitCode, err) ← Cli env w.args
      if let some err := err then
        emit (Event.fprintfStderr "Error executing CLI: %s\n" err)
        osExit 1
      emit Event.cleanupClients
      osExit exitCode)

/-- The trace of the whole process: `main` runs from the empty state; should `main` return,
the Go runtime ends the process with status 0. -/
def run {Cfg : Type} (w : World Cfg) : List Event :=
  match main w { trace := [], defers := [] } with
  | Outcome.ret _ s => s.trace ++ [Event.osExit 0]
  | Outcome.exited s => s.trace

/-! ## Reading a trace -/

/-- The computation `m` returns `a` from every state, appending the events `t` to the trace
and leaving the pending deferred calls of the caller as they were. -/
def Returns {α : Type} (m : Proc α) (a : α) (t : List Event) : Prop :=
  ∀ s : ProcState, m s = Outcome.ret a { trace := s.trace ++ t, defers := s.defers }

/-- The status the process ends with: the code of the `os.Exit` that closes the trace. -/
def exitStatus (t : List Event) : Option Int :=
  match t.getLast? with
  | some (Event.osExit code) => some code
  | _ => none

/-- A call of `plugin.CleanupClients`. -/
def Event.isCleanupClients : Event → Bool
  | Event.cleanupClients => true
  | _ => false

/-- A call of `env.Cli`. -/
def Event.isCli : Event → Bool
  | Event.cli _ => true
  | _ => false

/-- A call of `os.MkdirAll`, the only event of `packer.go` that changes the filesystem. -/
def Event.isMkdirAll : Event → Bool
  | Event.mkdirAll _ _ => true
  | _ => false

/-- A message written to standard error. -/
def Event.isStderr : Event → Bool
  | Event.fprintfStderr _ _ => true
  | _ => false

/-- A call of `user.Current`. -/
def Event.isUserCurrent : Event → Bool
  | Event.userCurrent => true
  | _ => false

/-- An event that consults an environment variable, the user database or a file. -/
def Event.isConsult : Event → Bool
  | Event.getenv _ => true
  | Event.userCurrent => true
  | Event.osOpen _ => true
  | _ => false

/-- The events `loadConfig` can produce. -/
def Event.isLoad : Event → Bool
  | Event.getenv _ => true
  | Event.userCurrent => true
  | Event.log _ => true
  | Event.osOpen _ => true
  | Event.fileClose _ => true
  | _ => false

/-- The paths passed to `os.Open`, in order. -/
def openedPaths : List Event → List String
  | [] => []
  | Event.osOpen path :: es => path :: openedPaths es
  | _ :: es => openedPaths es

/-- The configs passed to `packer.NewEnvironment`, in order. -/
def envConfigs : List Event → List EnvironmentConfig
  | [] => []
  | Event.newEnvironment envConfig :: es => envConfig :: envConfigs es
  | _ :: es => envConfigs es

/-- The events of `main` before it calls `loadConfig` (lines 18 to 29). -/
def startup {Cfg : Type} (w : World Cfg) : List Event :=
  [Event.getenv "PACKER_LOG",
   Event.logSetOutput (if w.getenv "PACKER_LOG" == "" then LogOutput.discard else LogOutput.stderr),
   Event.getenv "GOMAXPROCS"] ++
  (if w.getenv "GOMAXPROCS" == "" then [Event.gomaxprocs w.numCPU] else [])

/-- The value `main` gives `envConfig` (lines 52 to 58) from the loaded config and the cache. -/
def mainEnvConfig {Cfg : Type} (w : World Cfg) (config : Cfg) (cache : Option FileCache) :
    EnvironmentConfig :=
  { w.DefaultEnvironmentConfig with
    Cache := cache
    Commands := w.CommandNames config
    Components :=
      { w.DefaultEnvironmentConfig.Components with
        Builder := w.LoadBuilder config
        Command := w.LoadCommand config
        Hook := w.LoadHook config
        Provisioner := w.LoadProvisioner config } }

/-- The value `main` gives `cache` (lines 41 to 50) when `os.MkdirAll` does not fail. -/
def mainCache {Cfg : Type} (w : World Cfg) : Option FileCache :=
  if w.getenv "PACKER_CACHE_DIR" != "" then some { CacheDir := w.getenv "PACKER_CACHE_DIR" }
  else none

/-- The events of the cache gate of `main` (lines 42 to 50) when `os.MkdirAll` does not fail. -/
def gate {Cfg : Type} (w : World Cfg) : List Event :=
  Event.getenv "PACKER_CACHE_DIR" ::
    (if w.getenv "PACKER_CACHE_DIR" != "" then
      [Event.mkdirAll (w.getenv "PACKER_CACHE_DIR") 0o755,
       Event.log "Setting cache directory: %s"]
    else [])

/-! ## The plugin lifecycle manager -/

/-- Modelled from the spec: a plugin client (package `plugin`, not part of `packer.go`), one
spawned subprocess; `killFails` says whether its termination fails. -/
structure PluginClient where
  id : Nat
  killFails : Bool
deriving DecidableEq, Repr

/-- Modelled from the spec: the Plugin Lifecycle Manager of package `plugin`, which is not part
of `packer.go`: the registry of clients, the one-shot latch of the cleanup, the termination
attempts made so far and the termination failures logged so far. -/
structure ClientManager where
  clients : List PluginClient
  cleaned : Bool
  attempts : List Nat
  logged : List Nat
deriving DecidableEq, Repr

/-- Modelled from the spec: the manager of a process that has spawned no plugin yet; package
`plugin` is not part of `packer.go`. -/
def ClientManager.init : ClientManager :=
  { clients := [], cleaned := false, attempts := [], logged := [] }

/-- Modelled from the spec: `register(client)` of package `plugin`, which is not part of
`packer.go`; the client joins the registry. -/
def register (m : ClientManager) (c : PluginClient) : ClientManager :=
  { m with clients := m.clients ++ [c] }

/-- Modelled from the spec: `cleanupAll()`, the Go `plugin.CleanupClients`, which is not part of
`packer.go`. The one-shot latch lets the termination loop run once; the loop attempts every
registered client, a failure is logged and does not stop the loop; no error is returned
(`none`). -/
def CleanupClients (m : ClientManager) : ClientManager × Option Error :=
  if m.cleaned then (m, none)
  else
    ({ m with
        cleaned := true
        attempts := m.attempts ++ m.clients.map PluginClient.id
        logged := m.logged ++ (m.clients.filter PluginClient.killFails).map PluginClient.id },
     none)

/-! ## The configuration entries -/

/-- Modelled from the spec: the component kinds that key the configuration; the type `config`
is declared outside `packer.go`. -/
inductive Kind where
  | builder
  | command
  | hook
  | provisioner
deriving DecidableEq, Repr

/-! ## Concrete worlds -/

/-- A small configuration type: the launch descriptor of each (kind, name). -/
abbrev DemoConfig : Type := Kind → String → Option String

/-- The entries a demo config text defines. -/
def demoEntries (r : String) (k : Kind) (n : String) : Option String :=
  if r = "default" then
    (if k = Kind.builder ∧ n = "x" then some "A"
     else if k = Kind.provisioner ∧ n = "shell" then some "S" else none)
  else if r = "override" then
    (if k = Kind.builder ∧ n = "x" then some "B" else none)
  else none

/-- A demo decoder: the text `malformed` does not decode; any other text overwrites the entries
it defines and leaves the others. -/
def demoDecode (r : String) (c : DemoConfig) : Except Error DemoConfig :=
  if r = "malformed" then Except.error { text := "malformed", notExist := false }
  else Except.ok (fun k n => (demoEntries r k n).orElse (fun _ => c k n))

/-- The error of a file that is not there. -/
def enoent : Error := { text := "no such file or directory", notExist := true }

/-- The error of a file that may not be read. -/
def eacces : Error := { text := "permission denied", notExist := false }

/-- An environment whose `Cli` gives the same result for every command line. -/
def demoEnvironment (code : Int) (err : Option Error) : Environment :=
  { Cli := fun _ => (code, err) }

/-- A concrete world: the process environment, the files, the default text and the results of
`os.MkdirAll` and `packer.NewEnvironment` are given; the home directory is `/home/u`. -/
def demoWorld (env : String → String) (files : String → Except Error String)
    (defaultText : String) (mkdirErr : Option Error)
    (newEnv : Except Error Environment) : World DemoConfig :=
  { getenv := env
    args := ["build", "template.json"]
    numCPU := 4
    userCurrent := Except.ok { HomeDir := "/home/u" }
    join := fun dir name => dir ++ "/" ++ name
    osOpen := files
    mkdirAll := fun _ _ => mkdirErr
    defaultConfig := defaultText
    zeroConfig := fun _ _ => none
    decodeConfig := demoDecode
    CommandNames := fun _ => ["build"]
    LoadBuilder := fun c n => (c Kind.builder n).elim (Except.error enoent) Except.ok
    LoadCommand := fun c n => (c Kind.command n).elim (Except.error enoent) Except.ok
    LoadHook := fun c n => (c Kind.hook n).elim (Except.error enoent) Except.ok
    LoadProvisioner := fun c n => (c Kind.provisioner n).elim (Except.error enoent) Except.ok
    DefaultEnvironmentConfig :=
      { Cache := none
        Commands := []
        Components :=
          { Builder := fun _ => Except.error enoent
            Command := fun _ => Except.error enoent
            Hook := fun _ => Except.error enoent
            Provisioner := fun _ => Except.error enoent }
        Other := "" }
    NewEnvironment := fun _ => newEnv }

/-- No environment variable is set. -/
def noEnv : String → String := fun _ => ""

/-- Only `PACKER_CONFIG` is set, to `/etc/packer.conf`. -/
def configEnv : String → String := fun name =>
  if name = "PACKER_CONFIG" then "/etc/packer.conf" else ""

/-- Only `PACKER_CACHE_DIR` is set, to `/var/cache/packer`. -/
def cacheEnv : String → String := fun name =>
  if name = "PACKER_CACHE_DIR" then "/var/cache/packer" else ""

/-- No file exists. -/
def noFiles : String → Except Error String := fun _ => Except.error enoent

/-- No file may be read. -/
def lockedFiles : String → Except Error String := fun _ => Except.error eacces

/-- Every path holds the given text. -/
def allFiles (text : String) : String → Except Error String := fun _ => Except.ok text

/-- The trace of `loadConfig` in a demo world with no `PACKER_CONFIG` and no file. -/
def demoLoadTrace : List Event :=
  [Event.getenv "PACKER_CONFIG", Event.userCurrent,
   Event.log "Attempting to open config file: %s",
   Event.osOpen "/home/u/.packerrc",
   Event.log "File doesn't exist, but doesn't need to. Ignoring."]

/-! # Theorems -/

/-! ## Running the monad -/

theorem bind_run {α β : Type} (m : Proc α) (f : α → Proc β) (s : ProcState) :
    (m >>= f) s = match m s with
      | Outcome.ret a s1 => f a s1
      | Outcome.exited s1 => Outcome.exited s1 := rfl

theorem pure_run {α : Type} (a : α) (s : ProcState) :
    (pure a : Proc α) s = Outcome.ret a s := rfl

theorem Returns.unique {α : Type} {m : Proc α} {a b : α} {t u : List Event}
    (h1 : Returns m a t) (h2 : Returns m b u) : a = b ∧ t = u := by
  have e1 := h1 { trace := [], defers := [] }
  have e2 := h2 { trace := [], defers := [] }
  rw [e1] at e2
  simp only [List.nil_append, Outcome.ret.injEq, ProcState.mk.injEq, and_true] at e2
  exact e2

/-! ## `loadConfig`, path by path -/

section LoadConfig

variable {Cfg : Type} (w : World Cfg)

theorem loadConfig_default_decode_error {e : Error}
    (hd : w.decodeConfig w.defaultConfig w.zeroConfig = Except.error e) :
    Returns (loadConfig w) (Except.error e) [] := by
  intro s
  simp [loadConfig, goFunc, pure_run, hd]

theorem loadConfig_user_error {c0 : Cfg} {e : Error}
    (hd : w.decodeConfig w.defaultConfig w.zeroConfig = Except.ok c0)
    (hc : w.getenv "PACKER_CONFIG" = "")
    (hu : w.userCurrent = Except.error e) :
    Returns (loadConfig w) (Except.error e)
      [Event.getenv "PACKER_CONFIG", Event.userCurrent] := by
  intro s
  simp [loadConfig, goFunc, getenv, userCurrent, emit, bind_run, pure_run, hd, hc, hu]

theorem loadConfig_fallback_open_error {c0 : Cfg} {u : User} {e : Error}
    (hd : w.decodeConfig w.defaultConfig w.zeroConfig = Except.ok c0)
    (hc : w.getenv "PACKER_CONFIG" = "")
    (hu : w.userCurrent = Except.ok u)
    (ho : w.osOpen (w.join u.HomeDir ".packerrc") = Except.error e) :
    Returns (loadConfig w) (if IsNotExist e then Except.ok c0 else Except.error e)
      ([Event.getenv "PACKER_CONFIG", Event.userCurrent,
        Event.log "Attempting to open config file: %s",
        Event.osOpen (w.join u.HomeDir ".packerrc")] ++
       if IsNotExist e then [Event.log "File doesn't exist, but doesn't need to. Ignoring."]
       else []) := by
  intro s
  cases hn : IsNotExist e <;>
    simp [loadConfig, goFunc, getenv, userCurrent, osOpen, emit, bind_run, pure_run,
      hd, hc, hu, ho, hn]

theorem loadConfig_fallback_opened {c0 : Cfg} {u : User} {f : String}
    (hd : w.decodeConfig w.defaultConfig w.zeroConfig = Except.ok c0)
    (hc : w.getenv "PACKER_CONFIG" = "")
    (hu : w.userCurrent = Except.ok u)
    (ho : w.osOpen (w.join u.HomeDir ".packerrc") = Except.ok f) :
    Returns (loadConfig w) (w.decodeConfig f c0)
      [Event.getenv "PACKER_CONFIG", Event.userCurrent,
       Event.log "Attempting to open config file: %s",
       Event.osOpen (w.join u.HomeDir ".packerrc"),
       Event.fileClose (w.join u.HomeDir ".packerrc")] := by
  intro s
  cases h2 : w.decodeConfig f c0 <;>
    simp [loadConfig, goFunc, getenv, userCurrent, osOpen, emit, deferCall, bind_run, pure_run,
      hd, hc, hu, ho, h2]

theorem loadConfig_override_open_error {c0 : Cfg} {e : Error}
    (hd : w.decodeConfig w.defaultConfig w.zeroConfig = Except.ok c0)
    (hc : w.getenv "PACKER_CONFIG" ≠ "")
    (ho : w.osOpen (w.getenv "PACKER_CONFIG") = Except.error e) :
    Returns (loadConfig w) (Except.error e)
      [Event.getenv "PACKER_CONFIG",
       Event.log "Attempting to open config file: %s",
       Event.osOpen (w.getenv "PACKER_CONFIG")] := by
  intro s
  cases hn : IsNotExist e <;>
    simp [loadConfig, goFunc, getenv, osOpen, emit, bind_run, pure_run, hd, hc, ho, hn]

theorem loadConfig_override_opened {c0 : Cfg} {f : String}
    (hd : w.decodeConfig w.defaultConfig w.zeroConfig = Except.ok c0)
    (hc : w.getenv "PACKER_CONFIG" ≠ "")
    (ho : w.osOpen (w.getenv "PACKER_CONFIG") = Except.ok f) :
    Returns (loadConfig w) (w.decodeConfig f c0)
      [Event.getenv "PACKER_CONFIG",
       Event.log "Attempting to open config file: %s",
       Event.osOpen (w.getenv "PACKER_CONFIG"),
       Event.fileClose (w.getenv "PACKER_CONFIG")] := by
  intro s
  cases h2 : w.decodeConfig f c0 <;>
    simp [loadConfig, goFunc, getenv, osOpen, emit, deferCall, bind_run, pure_run,
      hd, hc, ho, h2]

/-- The function `loadConfig` always returns, never exits the process, and produces only events of its own
kind. -/
theorem loadConfig_returns :
    ∃ r t, Returns (loadConfig w) r t ∧ t.all Event.isLoad = true := by
  cases hd : w.decodeConfig w.defaultConfig w.zeroConfig with
  | error e => exact ⟨_, _, loadConfig_default_decode_error w hd, by simp⟩
  | ok c0 =>
    by_cases hc : w.getenv "PACKER_CONFIG" = ""
    · cases hu : w.userCurrent with
      | error e => exact ⟨_, _, loadConfig_user_error w hd hc hu, by simp [Event.isLoad]⟩
      | ok u =>
        cases ho : w.osOpen (w.join u.HomeDir ".packerrc") with
        | error e =>
          refine ⟨_, _, loadConfig_fallback_open_error w hd hc hu ho, ?_⟩
          cases IsNotExist e <;> simp [Event.isLoad]
        | ok f => exact ⟨_, _, loadConfig_fallback_opened w hd hc hu ho, by simp [Event.isLoad]⟩
    · cases ho : w.osOpen (w.getenv "PACKER_CONFIG") with
      | error e =>
        exact ⟨_, _, loadConfig_override_open_error w hd hc ho, by simp [Event.isLoad]⟩
      | ok f => exact ⟨_, _, loadConfig_override_opened w hd hc ho, by simp [Event.isLoad]⟩

theorem loadConfig_trace_isLoad {r : Except Error Cfg} {t : List Event}
    (h : Returns (loadConfig w) r t) : t.all Event.isLoad = true := by
  obtain ⟨r1, t1, h1, hall⟩ := loadConfig_returns w
  rw [(Returns.unique h h1).2]
  exact hall

end LoadConfig

/-! ## `main`, path by path -/

section Main

variable {Cfg : Type} (w : World Cfg)

theorem run_load_error {e : Error} {t : List Event}
    (hl : Returns (loadConfig w) (Except.error e) t) :
    run w = startup w ++ t ++
      [Event.fprintfStderr "Error loading configuration: \n\n%s\n" e, Event.osExit 1] := by
  unfold Returns at hl
  by_cases h1 : w.getenv "PACKER_LOG" = "" <;> by_cases h2 : w.getenv "GOMAXPROCS" = "" <;>
    simp [run, main, startup, goFunc, getenv, emit, osExit, bind_run, pure_run, hl, h1, h2]

theorem run_mkdir_error {c : Cfg} {e : Error} {t : List Event}
    (hl : Returns (loadConfig w) (Except.ok c) t)
    (hc : w.getenv "PACKER_CACHE_DIR" ≠ "")
    (hm : w.mkdirAll (w.getenv "PACKER_CACHE_DIR") 0o755 = some e) :
    run w = startup w ++ t ++
      [Event.log "Packer config: %+v", Event.getenv "PACKER_CACHE_DIR",
       Event.mkdirAll (w.getenv "PACKER_CACHE_DIR") 0o755,
       Event.fprintfStderr "Error preparing cache directory: \n\n%s\n" e, Event.osExit 1] := by
  unfold Returns at hl
  by_cases h1 : w.getenv "PACKER_LOG" = "" <;> by_cases h2 : w.getenv "GOMAXPROCS" = "" <;>
    simp [run, main, startup, goFunc, getenv, mkdirAll, emit, deferCall, osExit, bind_run,
      pure_run, hl, h1, h2, hc, hm]

theorem run_newEnvironment_error {c : Cfg} {e : Error} {t : List Event}
    (hl : Returns (loadConfig w) (Except.ok c) t)
    (hg : w.getenv "PACKER_CACHE_DIR" = "" ∨
      w.mkdirAll (w.getenv "PACKER_CACHE_DIR") 0o755 = none)
    (hn : w.NewEnvironment (mainEnvConfig w c (mainCache w)) = Except.error e) :
    run w = startup w ++ t ++ [Event.log "Packer config: %+v"] ++ gate w ++
      [Event.newEnvironment (mainEnvConfig w c (mainCache w)),
       Event.fprintfStderr "Packer initialization error: \n\n%s\n" e, Event.osExit 1] := by
  unfold Returns at hl
  by_cases hc : w.getenv "PACKER_CACHE_DIR" = ""
  · simp only [mainEnvConfig, mainCache, hc, bne_self_eq_false, Bool.false_eq_true,
      if_false] at hn
    by_cases h1 : w.getenv "PACKER_LOG" = "" <;> by_cases h2 : w.getenv "GOMAXPROCS" = "" <;>
      simp [run, main, startup, gate, mainEnvConfig, mainCache, goFunc, getenv, mkdirAll,
        NewEnvironment, emit, deferCall, osExit, bind_run, pure_run, hl, h1, h2, hc, hn]
  · have hm := hg.resolve_left hc
    simp only [mainEnvConfig, mainCache, bne_iff_ne, ne_eq, hc, not_false_eq_true,
      if_true] at hn
    by_cases h1 : w.getenv "PACKER_LOG" = "" <;> by_cases h2 : w.getenv "GOMAXPROCS" = "" <;>
      simp [run, main, startup, gate, mainEnvConfig, mainCache, goFunc, getenv, mkdirAll,
        NewEnvironment, emit, deferCall, osExit, bind_run, pure_run, hl, h1, h2, hc, hm, hn]

theorem run_cli_error {c : Cfg} {env : Environment} {code : Int} {e : Error} {t : List Event}
    (hl : Returns (loadConfig w) (Except.ok c) t)
    (hg : w.getenv "PACKER_CACHE_DIR" = "" ∨
      w.mkdirAll (w.getenv "PACKER_CACHE_DIR") 0o755 = none)
    (hn : w.NewEnvironment (mainEnvConfig w c (mainCache w)) = Except.ok env)
    (hx : env.Cli w.args = (code, some e)) :
    run w = startup w ++ t ++ [Event.log "Packer config: %+v"] ++ gate w ++
      [Event.newEnvironment (mainEnvConfig w c (mainCache w)),
       Event.setupSignalHandlers, Event.cli w.args,
       Event.fprintfStderr "Error executing CLI: %s\n" e, Event.osExit 1] := by
  unfold Returns at hl
  by_cases hc : w.getenv "PACKER_CACHE_DIR" = ""
  · simp only [mainEnvConfig, mainCache, hc, bne_self_eq_false, Bool.false_eq_true,
      if_false] at hn
    by_cases h1 : w.getenv "PACKER_LOG" = "" <;> by_cases h2 : w.getenv "GOMAXPROCS" = "" <;>
      simp [run, main, startup, gate, mainEnvConfig, mainCache, goFunc, getenv, mkdirAll,
        NewEnvironment, Cli, emit, deferCall, osExit, bind_run, pure_run, hl, h1, h2, hc, hn,
        hx]
  · have hm := hg.resolve_left hc
    simp only [mainEnvConfig, mainCache, bne_iff_ne, ne_eq, hc, not_false_eq_true,
      if_true] at hn
    by_cases h1 : w.getenv "PACKER_LOG" = "" <;> by_cases h2 : w.getenv "GOMAXPROCS" = "" <;>
      simp [run, main, startup, gate, mainEnvConfig, mainCache, goFunc, getenv, mkdirAll,
        NewEnvironment, Cli, emit, deferCall, osExit, bind_run, pure_run, hl, h1, h2, hc, hm,
        hn, hx]

theorem run_cli_ok {c : Cfg} {env : Environment} {code : Int} {t : List Event}
    (hl : Returns (loadConfig w) (Except.ok c) t)
    (hg : w.getenv "PACKER_CACHE_DIR" = "" ∨
      w.mkdirAll (w.getenv "PACKER_CACHE_DIR") 0o755 = none)
    (hn : w.NewEnvironment (mainEnvConfig w c (mainCache w)) = Except.ok env)
    (hx : env.Cli w.args = (code, none)) :
    run w = startup w ++ t ++ [Event.log "Packer config: %+v"] ++ gate w ++
      [Event.newEnvironment (mainEnvConfig w c (mainCache w)),
       Event.setupSignalHandlers, Event.cli w.args,
       Event.cleanupClients, Event.osExit code] := by
  unfold Returns at hl
  by_cases hc : w.getenv "PACKER_CACHE_DIR" = ""
  · simp only [mainEnvConfig, mainCache, hc, bne_self_eq_false, Bool.false_eq_true,
      if_false] at hn
    by_cases h1 : w.getenv "PACKER_LOG" = "" <;> by_cases h2 : w.getenv "GOMAXPROCS" = "" <;>
      simp [run, main, startup, gate, mainEnvConfig, mainCache, goFunc, getenv, mkdirAll,
        NewEnvironment, Cli, emit, deferCall, osExit, bind_run, pure_run, hl, h1, h2, hc, hn,
        hx]
  · have hm := hg.resolve_left hc
    simp only [mainEnvConfig, mainCache, bne_iff_ne, ne_eq, hc, not_false_eq_true,
      if_true] at hn
    by_cases h1 : w.getenv "PACKER_LOG" = "" <;> by_cases h2 : w.getenv "GOMAXPROCS" = "" <;>
      simp [run, main, startup, gate, mainEnvConfig, mainCache, goFunc, getenv, mkdirAll,
        NewEnvironment, Cli, emit, deferCall, osExit, bind_run, pure_run, hl, h1, h2, hc, hm,
        hn, hx]

/-- The trace of `startup` holds none of the events the properties of `main` look for. -/
theorem startup_quiet :
    (startup w).any Event.isCli = false ∧ (startup w).any Event.isMkdirAll = false ∧
    (startup w).any Event.isCleanupClients = false ∧ (startup w).any Event.isStderr = false ∧
    envConfigs (startup w) = [] := by
  by_cases h2 : w.getenv "GOMAXPROCS" = "" <;>
    simp [startup, h2, Event.isCli, Event.isMkdirAll, Event.isCleanupClients, Event.isStderr,
      envConfigs]

/-- A trace of `loadConfig` holds none of the events the properties of `main` look for. -/
theorem isLoad_quiet {t : List Event} (h : t.all Event.isLoad = true) :
    t.any Event.isCli = false ∧ t.any Event.isMkdirAll = false ∧
    t.any Event.isCleanupClients = false ∧ t.any Event.isStderr = false ∧
    envConfigs t = [] := by
  induction t with
  | nil => simp [envConfigs]
  | cons e es ih =>
    simp only [List.all_cons, Bool.and_eq_true] at h
    obtain ⟨h1, h2, h3, h4, h5⟩ := ih h.2
    cases e <;> simp_all [Event.isLoad, Event.isCli, Event.isMkdirAll, Event.isCleanupClients,
      Event.isStderr, envConfigs]

theorem envConfigs_append (t u : List Event) : envConfigs (t ++ u) = envConfigs t ++ envConfigs u := by
  induction t with
  | nil => rfl
  | cons e es ih => cases e <;> simp [envConfigs, ih]

theorem exitStatus_append (l m : List Event) (code : Int) (h : exitStatus m = some code) :
    exitStatus (l ++ m) = some code := by
  unfold exitStatus at h ⊢
  rw [List.getLast?_append]
  cases hm : m.getLast? with
  | none => simp [hm] at h
  | some e => simpa [hm] using h

/-- The cache gate holds no call of `Cli`, no cleanup and no message on standard error. -/
theorem gate_quiet :
    (gate w).any Event.isCli = false ∧ (gate w).any Event.isCleanupClients = false ∧
    (gate w).any Event.isStderr = false ∧ envConfigs (gate w) = [] := by
  by_cases hc : w.getenv "PACKER_CACHE_DIR" = "" <;>
    simp [gate, hc, Event.isCli, Event.isCleanupClients, Event.isStderr, envConfigs]

end Main

/-! ## Properties of `loadConfig` -/

section LoadConfigClaims

variable {Cfg : Type}

/-- C3: when `PACKER_CONFIG` is empty, the user lookup succeeds, the default text decodes to
`c0` from the zero config, and opening `<home>/.packerrc` fails with a does-not-exist error,
`loadConfig` returns no error and exactly the config `c0`; the trace shows the one attempt to
open the fallback file. -/
theorem loadConfig_missing_fallback (w : World Cfg) (c0 : Cfg) (u : User) (e : Error)
    (hc : w.getenv "PACKER_CONFIG" = "")
    (hu : w.userCurrent = Except.ok u)
    (hd : w.decodeConfig w.defaultConfig w.zeroConfig = Except.ok c0)
    (ho : w.osOpen (w.join u.HomeDir ".packerrc") = Except.error e)
    (hn : IsNotExist e = true) :
    Returns (loadConfig w) (Except.ok c0)
      [Event.getenv "PACKER_CONFIG", Event.userCurrent,
       Event.log "Attempting to open config file: %s",
       Event.osOpen (w.join u.HomeDir ".packerrc"),
       Event.log "File doesn't exist, but doesn't need to. Ignoring."] := by
  have h := loadConfig_fallback_open_error w hd hc hu ho
  simpa [hn] using h

theorem loadConfig_missing_fallback_witness :
    Returns (loadConfig (demoWorld noEnv noFiles "default" none (Except.error eacces)))
      (Except.ok (fun k n => (demoEntries "default" k n).orElse (fun _ => none)))
      [Event.getenv "PACKER_CONFIG", Event.userCurrent,
       Event.log "Attempting to open config file: %s",
       Event.osOpen "/home/u/.packerrc",
       Event.log "File doesn't exist, but doesn't need to. Ignoring."] :=
  loadConfig_missing_fallback (demoWorld noEnv noFiles "default" none (Except.error eacces))
    (fun k n => (demoEntries "default" k n).orElse (fun _ => none)) { HomeDir := "/home/u" }
    enoent rfl rfl rfl rfl rfl

/-- C4: for every non-empty `PACKER_CONFIG`, if opening that path fails with a does-not-exist
error, `loadConfig` returns an error and no config; the error is the one of `os.Open` whenever
the default text decodes; the user is never looked up and no other path is opened. -/
theorem loadConfig_missing_override (w : World Cfg) (e : Error)
    (hc : w.getenv "PACKER_CONFIG" ≠ "")
    (ho : w.osOpen (w.getenv "PACKER_CONFIG") = Except.error e)
    (hn : IsNotExist e = true) :
    ∃ err t, Returns (loadConfig w) (Except.error err) t ∧
      (∀ c0, w.decodeConfig w.defaultConfig w.zeroConfig = Except.ok c0 → err = e) ∧
      t.any Event.isUserCurrent = false ∧
      ∀ p ∈ openedPaths t, p = w.getenv "PACKER_CONFIG" := by
  have _ := hn
  cases hd : w.decodeConfig w.defaultConfig w.zeroConfig with
  | error e0 =>
    exact ⟨e0, [], loadConfig_default_decode_error w hd, by simp, by simp, by simp [openedPaths]⟩
  | ok c0 =>
    exact ⟨e, _, loadConfig_override_open_error w hd hc ho, by simp,
      by simp [Event.isUserCurrent], by simp [openedPaths]⟩

theorem loadConfig_missing_override_witness :
    ∃ err t, Returns (loadConfig (demoWorld configEnv noFiles "default" none
        (Except.error eacces))) (Except.error err) t ∧
      (∀ c0, demoDecode "default" (fun _ _ => none) = Except.ok c0 → err = enoent) ∧
      t.any Event.isUserCurrent = false ∧
      ∀ p ∈ openedPaths t, p = "/etc/packer.conf" :=
  loadConfig_missing_override (demoWorld configEnv noFiles "default" none (Except.error eacces))
    enoent (by decide) rfl rfl

/-- C5: when the chosen config file opens and both decodes succeed, `loadConfig` returns
`decode(file, decode(defaultText, zero))`. Hence, if `decodeConfig` overwrites the entries its
input defines and leaves the others, a builder that the override maps to `B` resolves to `B` in
the result, whatever the default mapped it to, and every (kind, name) entry the override does
not define keeps the value the default gave it. -/
theorem loadConfig_merge (w : World Cfg) (c0 c1 : Cfg) (path f : String)
    (hp : (w.getenv "PACKER_CONFIG" ≠ "" ∧ path = w.getenv "PACKER_CONFIG") ∨
      (w.getenv "PACKER_CONFIG" = "" ∧
        ∃ u, w.userCurrent = Except.ok u ∧ path = w.join u.HomeDir ".packerrc"))
    (ho : w.osOpen path = Except.ok f)
    (hd : w.decodeConfig w.defaultConfig w.zeroConfig = Except.ok c0)
    (h1 : w.decodeConfig f c0 = Except.ok c1)
    (lookup : Cfg → Kind → String → Option String)
    (entries : String → Kind → String → Option String)
    (hmerge : ∀ r c d, w.decodeConfig r c = Except.ok d →
      ∀ k n, lookup d k n = (entries r k n).orElse (fun _ => lookup c k n)) :
    (∃ t, Returns (loadConfig w) (Except.ok c1) t) ∧
    (∀ x A B, entries w.defaultConfig Kind.builder x = some A →
      entries f Kind.builder x = some B →
      lookup c0 Kind.builder x = some A ∧ lookup c1 Kind.builder x = some B) ∧
    (∀ k n, entries f k n = none → lookup c1 k n = lookup c0 k n) := by
  refine ⟨?_, ?_, ?_⟩
  · rcases hp with ⟨hc, rfl⟩ | ⟨hc, u, hu, rfl⟩
    · have h := loadConfig_override_opened w hd hc ho
      rw [h1] at h
      exact ⟨_, h⟩
    · have h := loadConfig_fallback_opened w hd hc hu ho
      rw [h1] at h
      exact ⟨_, h⟩
  · intro x A B hA hB
    constructor
    · rw [hmerge _ _ _ hd, hA]; rfl
    · rw [hmerge _ _ _ h1, hB]; rfl
  · intro k n hk
    rw [hmerge _ _ _ h1, hk]; rfl

theorem loadConfig_merge_witness :
    (∃ t, Returns (loadConfig (demoWorld configEnv (allFiles "override") "default" none
        (Except.error eacces)))
      (Except.ok (fun k n => (demoEntries "override" k n).orElse
        (fun _ => (demoEntries "default" k n).orElse (fun _ => none)))) t) ∧
    ((demoEntries "default" Kind.builder "x").orElse (fun _ => none) = some "A" ∧
      (demoEntries "override" Kind.builder "x").orElse
        (fun _ => (demoEntries "default" Kind.builder "x").orElse (fun _ => none)) =
        some "B") ∧
    (demoEntries "override" Kind.provisioner "shell").orElse
        (fun _ => (demoEntries "default" Kind.provisioner "shell").orElse (fun _ => none)) =
      (demoEntries "default" Kind.provisioner "shell").orElse (fun _ => none) :=
  have h := loadConfig_merge (demoWorld configEnv (allFiles "override") "default" none
      (Except.error eacces))
    (fun k n => (demoEntries "default" k n).orElse (fun _ => none))
    (fun k n => (demoEntries "override" k n).orElse
      (fun _ => (demoEntries "default" k n).orElse (fun _ => none)))
    "/etc/packer.conf" "override" (Or.inl ⟨by decide, rfl⟩) rfl rfl rfl
    (fun c => c) demoEntries
    (fun r c d h k n => by
      simp only [demoWorld, demoDecode] at h
      split at h
      · cases h
      · cases h; rfl)
  ⟨h.1, h.2.1 "x" "A" "B" rfl rfl, h.2.2 Kind.provisioner "shell" rfl⟩

/-- C6: if decoding the default text fails with `e`, or the chosen config file opens and
decoding it fails with `e`, then `loadConfig` returns the error `e` and no config; when it is
the default text that fails, the trace is empty: no environment variable, user or file has
been consulted. -/
theorem loadConfig_decode_error (w : World Cfg) (e : Error)
    (h : w.decodeConfig w.defaultConfig w.zeroConfig = Except.error e ∨
      ∃ c0 path f, w.decodeConfig w.defaultConfig w.zeroConfig = Except.ok c0 ∧
        ((w.getenv "PACKER_CONFIG" ≠ "" ∧ path = w.getenv "PACKER_CONFIG") ∨
          (w.getenv "PACKER_CONFIG" = "" ∧
            ∃ u, w.userCurrent = Except.ok u ∧ path = w.join u.HomeDir ".packerrc")) ∧
        w.osOpen path = Except.ok f ∧ w.decodeConfig f c0 = Except.error e) :
    ∃ t, Returns (loadConfig w) (Except.error e) t ∧
      (w.decodeConfig w.defaultConfig w.zeroConfig = Except.error e → t = []) := by
  rcases h with hd | ⟨c0, path, f, hd, hp, ho, h1⟩
  · exact ⟨[], loadConfig_default_decode_error w hd, fun _ => rfl⟩
  · rcases hp with ⟨hc, rfl⟩ | ⟨hc, u, hu, rfl⟩
    · have h := loadConfig_override_opened w hd hc ho
      rw [h1] at h
      exact ⟨_, h, fun h2 => by rw [hd] at h2; cases h2⟩
    · have h := loadConfig_fallback_opened w hd hc hu ho
      rw [h1] at h
      exact ⟨_, h, fun h2 => by rw [hd] at h2; cases h2⟩

theorem loadConfig_decode_error_witness :
    (∃ t, Returns (loadConfig (demoWorld configEnv (allFiles "override") "malformed" none
        (Except.error eacces))) (Except.error { text := "malformed", notExist := false }) t ∧
      (demoDecode "malformed" (fun _ _ => none) =
        Except.error { text := "malformed", notExist := false } → t = [])) ∧
    (∃ t, Returns (loadConfig (demoWorld noEnv (allFiles "malformed") "default" none
        (Except.error eacces))) (Except.error { text := "malformed", notExist := false }) t ∧
      (demoDecode "default" (fun _ _ => none) =
        Except.error { text := "malformed", notExist := false } → t = [])) :=
  ⟨loadConfig_decode_error (demoWorld configEnv (allFiles "override") "malformed" none
      (Except.error eacces)) { text := "malformed", notExist := false } (Or.inl rfl),
   loadConfig_decode_error (demoWorld noEnv (allFiles "malformed") "default" none
      (Except.error eacces)) { text := "malformed", notExist := false }
      (Or.inr ⟨fun k n => (demoEntries "default" k n).orElse (fun _ => none),
        "/home/u/.packerrc", "malformed", rfl,
        Or.inr ⟨rfl, { HomeDir := "/home/u" }, rfl, rfl⟩, rfl, rfl⟩)⟩

/-- C10: when the default text decodes and opening the chosen config file fails with an error
that is not a does-not-exist error, `loadConfig` returns that error and no config, both when
the path is the value of `PACKER_CONFIG` and when it is the fallback `<home>/.packerrc`. -/
theorem loadConfig_open_error (w : World Cfg) (c0 : Cfg) (path : String) (e : Error)
    (hd : w.decodeConfig w.defaultConfig w.zeroConfig = Except.ok c0)
    (hp : (w.getenv "PACKER_CONFIG" ≠ "" ∧ path = w.getenv "PACKER_CONFIG") ∨
      (w.getenv "PACKER_CONFIG" = "" ∧
        ∃ u, w.userCurrent = Except.ok u ∧ path = w.join u.HomeDir ".packerrc"))
    (ho : w.osOpen path = Except.error e)
    (hn : IsNotExist e = false) :
    ∃ t, Returns (loadConfig w) (Except.error e) t := by
  rcases hp with ⟨hc, rfl⟩ | ⟨hc, u, hu, rfl⟩
  · exact ⟨_, loadConfig_override_open_error w hd hc ho⟩
  · have h := loadConfig_fallback_open_error w hd hc hu ho
    simp only [hn, Bool.false_eq_true, if_false] at h
    exact ⟨_, h⟩

theorem loadConfig_open_error_witness :
    (∃ t, Returns (loadConfig (demoWorld configEnv lockedFiles "default" none
        (Except.error eacces))) (Except.error eacces) t) ∧
    (∃ t, Returns (loadConfig (demoWorld noEnv lockedFiles "default" none
        (Except.error eacces))) (Except.error eacces) t) :=
  ⟨loadConfig_open_error (demoWorld configEnv lockedFiles "default" none (Except.error eacces))
      (fun k n => (demoEntries "default" k n).orElse (fun _ => none)) "/etc/packer.conf" eacces
      rfl (Or.inl ⟨by decide, rfl⟩) rfl rfl,
   loadConfig_open_error (demoWorld noEnv lockedFiles "default" none (Except.error eacces))
      (fun k n => (demoEntries "default" k n).orElse (fun _ => none)) "/home/u/.packerrc" eacces
      rfl (Or.inr ⟨rfl, { HomeDir := "/home/u" }, rfl, rfl⟩) rfl rfl⟩

end LoadConfigClaims

/-! ## Properties of `main` -/

section MainClaims

variable {Cfg : Type}

/-- In a demo world with no `PACKER_CONFIG` and no file, `loadConfig` returns the default
config. -/
theorem demo_loadConfig (env : String → String) (henv : env "PACKER_CONFIG" = "")
    (mkdirErr : Option Error) (newEnv : Except Error Environment) :
    Returns (loadConfig (demoWorld env noFiles "default" mkdirErr newEnv))
      (Except.ok (fun k n => (demoEntries "default" k n).orElse (fun _ => none)))
      demoLoadTrace :=
  @loadConfig_fallback_open_error _ (demoWorld env noFiles "default" mkdirErr newEnv)
    (fun k n => (demoEntries "default" k n).orElse (fun _ => none))
    { HomeDir := "/home/u" } enoent rfl henv rfl rfl

/-- C2: after a successful bootstrap (`loadConfig` returns a config, the cache directory is
not set or `os.MkdirAll` succeeds, `packer.NewEnvironment` returns an environment), whatever
`(exitCode, err)` the environment's `Cli` returns, the process exits with `exitCode` when `err`
is nil and with 1 when it is not. -/
theorem main_exit_code (w : World Cfg) (c : Cfg) (t : List Event) (env : Environment)
    (exitCode : Int) (err : Option Error)
    (hl : Returns (loadConfig w) (Except.ok c) t)
    (hg : w.getenv "PACKER_CACHE_DIR" = "" ∨
      w.mkdirAll (w.getenv "PACKER_CACHE_DIR") 0o755 = none)
    (hn : w.NewEnvironment (mainEnvConfig w c (mainCache w)) = Except.ok env)
    (hx : env.Cli w.args = (exitCode, err)) :
    exitStatus (run w) = some (if err.isSome then 1 else exitCode) := by
  cases err with
  | none => rw [run_cli_ok w hl hg hn hx]; exact exitStatus_append _ _ _ rfl
  | some e => rw [run_cli_error w hl hg hn hx]; exact exitStatus_append _ _ _ rfl

theorem main_exit_code_witness :
    exitStatus (run (demoWorld noEnv noFiles "default" none
      (Except.ok (demoEnvironment 3 none)))) = some 3 ∧
    exitStatus (run (demoWorld cacheEnv noFiles "default" none
      (Except.ok (demoEnvironment 3 (some eacces))))) = some 1 :=
  ⟨main_exit_code (demoWorld noEnv noFiles "default" none (Except.ok (demoEnvironment 3 none)))
      (fun k n => (demoEntries "default" k n).orElse (fun _ => none)) demoLoadTrace
      (demoEnvironment 3 none) 3 none (demo_loadConfig noEnv rfl _ _) (Or.inl rfl) rfl rfl,
   main_exit_code (demoWorld cacheEnv noFiles "default" none
      (Except.ok (demoEnvironment 3 (some eacces))))
      (fun k n => (demoEntries "default" k n).orElse (fun _ => none)) demoLoadTrace
      (demoEnvironment 3 (some eacces)) 3 (some eacces) (demo_loadConfig cacheEnv rfl _ _)
      (Or.inr rfl) rfl rfl⟩

/-- C7: if `loadConfig` returns an error, or the cache directory setting is non-empty and
`os.MkdirAll` fails, or `packer.NewEnvironment` returns an error for the config `main` builds,
then the process exits with code 1, a message is written to standard error, and the
environment's `Cli` is never called. -/
theorem main_bootstrap_error (w : World Cfg)
    (h : (∃ e t, Returns (loadConfig w) (Except.error e) t) ∨
      (w.getenv "PACKER_CACHE_DIR" ≠ "" ∧
        w.mkdirAll (w.getenv "PACKER_CACHE_DIR") 0o755 ≠ none) ∨
      (∃ c t e, Returns (loadConfig w) (Except.ok c) t ∧
        w.NewEnvironment (mainEnvConfig w c (mainCache w)) = Except.error e)) :
    exitStatus (run w) = some 1 ∧ (run w).any Event.isStderr = true ∧
      (run w).any Event.isCli = false := by
  obtain ⟨r, t, hr, hall⟩ := loadConfig_returns w
  obtain ⟨q1, -, -, -, -⟩ := startup_quiet w
  obtain ⟨q2, -, -, -, -⟩ := isLoad_quiet hall
  obtain ⟨q3, -, -, -⟩ := gate_quiet w
  have hmk : ∀ c, r = Except.ok c → w.getenv "PACKER_CACHE_DIR" ≠ "" →
      ∀ e, w.mkdirAll (w.getenv "PACKER_CACHE_DIR") 0o755 = some e →
      exitStatus (run w) = some 1 ∧ (run w).any Event.isStderr = true ∧
        (run w).any Event.isCli = false := by
    intro c hrc hc e hm
    subst hrc
    rw [run_mkdir_error w hr hc hm]
    refine ⟨exitStatus_append _ _ _ rfl, ?_, ?_⟩
    · simp [Event.isStderr]
    · simp [q1, q2, Event.isCli]
  cases r with
  | error e =>
    rw [run_load_error w hr]
    refine ⟨exitStatus_append _ _ _ rfl, ?_, ?_⟩
    · simp [Event.isStderr]
    · simp [q1, q2, Event.isCli]
  | ok c =>
    rcases h with ⟨e, t1, h1⟩ | ⟨hc, hm⟩ | ⟨c1, t1, e, h1, hn⟩
    · cases (Returns.unique hr h1).1
    · cases hm1 : w.mkdirAll (w.getenv "PACKER_CACHE_DIR") 0o755 with
      | none => exact absurd hm1 hm
      | some e => exact hmk c rfl hc e hm1
    · cases (Returns.unique hr h1).1
      by_cases hc : w.getenv "PACKER_CACHE_DIR" = ""
      · rw [run_newEnvironment_error w hr (Or.inl hc) hn]
        refine ⟨exitStatus_append _ _ _ rfl, ?_, ?_⟩
        · simp [Event.isStderr]
        · simp [q1, q2, q3, Event.isCli]
      · cases hm1 : w.mkdirAll (w.getenv "PACKER_CACHE_DIR") 0o755 with
        | none =>
          rw [run_newEnvironment_error w hr (Or.inr hm1) hn]
          refine ⟨exitStatus_append _ _ _ rfl, ?_, ?_⟩
          · simp [Event.isStderr]
          · simp [q1, q2, q3, Event.isCli]
        | some e1 => exact hmk c rfl hc e1 hm1

theorem main_bootstrap_error_witness :
    (exitStatus (run (demoWorld configEnv noFiles "default" none
        (Except.ok (demoEnvironment 0 none)))) = some 1 ∧
      (run (demoWorld configEnv noFiles "default" none
        (Except.ok (demoEnvironment 0 none)))).any Event.isStderr = true ∧
      (run (demoWorld configEnv noFiles "default" none
        (Except.ok (demoEnvironment 0 none)))).any Event.isCli = false) ∧
    (exitStatus (run (demoWorld cacheEnv noFiles "default" (some eacces)
        (Except.ok (demoEnvironment 0 none)))) = some 1 ∧
      (run (demoWorld cacheEnv noFiles "default" (some eacces)
        (Except.ok (demoEnvironment 0 none)))).any Event.isStderr = true ∧
      (run (demoWorld cacheEnv noFiles "default" (some eacces)
        (Except.ok (demoEnvironment 0 none)))).any Event.isCli = false) ∧
    (exitStatus (run (demoWorld noEnv noFiles "default" none (Except.error eacces))) = some 1 ∧
      (run (demoWorld noEnv noFiles "default" none (Except.error eacces))).any
        Event.isStderr = true ∧
      (run (demoWorld noEnv noFiles "default" none (Except.error eacces))).any
        Event.isCli = false) :=
  ⟨main_bootstrap_error (demoWorld configEnv noFiles "default" none
      (Except.ok (demoEnvironment 0 none)))
      (Or.inl ⟨enoent, _, @loadConfig_override_open_error _ _
        (fun k n => (demoEntries "default" k n).orElse (fun _ => none)) enoent rfl
        (by decide) rfl⟩),
   main_bootstrap_error (demoWorld cacheEnv noFiles "default" (some eacces)
      (Except.ok (demoEnvironment 0 none)))
      (Or.inr (Or.inl ⟨by decide, by decide⟩)),
   main_bootstrap_error (demoWorld noEnv noFiles "default" none (Except.error eacces))
      (Or.inr (Or.inr ⟨_, _, eacces, demo_loadConfig noEnv rfl _ _, rfl⟩))⟩

/-- C8: when `loadConfig` succeeds and `PACKER_CACHE_DIR` is empty, the process never calls
`os.MkdirAll`; the cache gate does nothing but read the variable; `main` goes on to call
`packer.NewEnvironment`, once, with a config whose `Cache` is nil. -/
theorem main_cache_disabled (w : World Cfg) (c : Cfg) (t : List Event)
    (hl : Returns (loadConfig w) (Except.ok c) t)
    (hc : w.getenv "PACKER_CACHE_DIR" = "") :
    (run w).any Event.isMkdirAll = false ∧
    (envConfigs (run w)).map EnvironmentConfig.Cache = [none] ∧
    ∃ post, run w = startup w ++ t ++
      [Event.log "Packer config: %+v", Event.getenv "PACKER_CACHE_DIR",
       Event.newEnvironment (mainEnvConfig w c none)] ++ post := by
  obtain ⟨-, q1, -, -, r1⟩ := startup_quiet w
  obtain ⟨-, q2, -, -, r2⟩ := isLoad_quiet (loadConfig_trace_isLoad w hl)
  have hg : gate w = [Event.getenv "PACKER_CACHE_DIR"] := by simp [gate, hc]
  have hm : mainCache w = none := by simp [mainCache, hc]
  cases hn : w.NewEnvironment (mainEnvConfig w c (mainCache w)) with
  | error e =>
    rw [run_newEnvironment_error w hl (Or.inl hc) hn, hg, hm]
    refine ⟨?_, ?_, ⟨[Event.fprintfStderr "Packer initialization error: \n\n%s\n" e, Event.osExit 1], by simp⟩⟩
    · simp [q1, q2, Event.isMkdirAll]
    · simp only [envConfigs_append, r1, r2, List.nil_append]
      rfl
  | ok env =>
    cases hx : env.Cli w.args with
    | mk code err =>
      cases err with
      | none =>
        rw [run_cli_ok w hl (Or.inl hc) hn hx, hg, hm]
        refine ⟨?_, ?_, ⟨[Event.setupSignalHandlers, Event.cli w.args, Event.cleanupClients, Event.osExit code], by simp⟩⟩
        · simp [q1, q2, Event.isMkdirAll]
        · simp only [envConfigs_append, r1, r2, List.nil_append]
          rfl
      | some e =>
        rw [run_cli_error w hl (Or.inl hc) hn hx, hg, hm]
        refine ⟨?_, ?_, ⟨[Event.setupSignalHandlers, Event.cli w.args,
          Event.fprintfStderr "Error executing CLI: %s\n" e, Event.osExit 1], by simp⟩⟩
        · simp [q1, q2, Event.isMkdirAll]
        · simp only [envConfigs_append, r1, r2, List.nil_append]
          rfl

theorem main_cache_disabled_witness :
    (run (demoWorld noEnv noFiles "default" (some eacces)
      (Except.ok (demoEnvironment 0 none)))).any Event.isMkdirAll = false ∧
    (envConfigs (run (demoWorld noEnv noFiles "default" (some eacces)
      (Except.ok (demoEnvironment 0 none))))).map EnvironmentConfig.Cache = [none] ∧
    ∃ post, run (demoWorld noEnv noFiles "default" (some eacces)
        (Except.ok (demoEnvironment 0 none))) =
      startup (demoWorld noEnv noFiles "default" (some eacces)
        (Except.ok (demoEnvironment 0 none))) ++ demoLoadTrace ++
      [Event.log "Packer config: %+v", Event.getenv "PACKER_CACHE_DIR",
       Event.newEnvironment (mainEnvConfig (demoWorld noEnv noFiles "default" (some eacces)
        (Except.ok (demoEnvironment 0 none)))
        (fun k n => (demoEntries "default" k n).orElse (fun _ => none)) none)] ++ post :=
  main_cache_disabled (demoWorld noEnv noFiles "default" (some eacces)
      (Except.ok (demoEnvironment 0 none)))
    (fun k n => (demoEntries "default" k n).orElse (fun _ => none)) demoLoadTrace
    (demo_loadConfig noEnv rfl _ _) rfl

/-- C1, at the dispatch error path: in a world where the bootstrap succeeds and the
environment's `Cli` returns exit code 1 with a non-nil error, the process calls `Cli`, exits
with code 1, and its trace holds no call of `plugin.CleanupClients`: the call deferred at
line 39 is pending when `os.Exit(1)` ends the process and never runs. -/
theorem main_dispatch_error_skips_cleanup :
    (run (demoWorld noEnv noFiles "default" none
      (Except.ok (demoEnvironment 1 (some eacces))))).any Event.isCli = true ∧
    exitStatus (run (demoWorld noEnv noFiles "default" none
      (Except.ok (demoEnvironment 1 (some eacces))))) = some 1 ∧
    (run (demoWorld noEnv noFiles "default" none
      (Except.ok (demoEnvironment 1 (some eacces))))).any Event.isCleanupClients = false := by
  have hrun := @run_cli_error _ (demoWorld noEnv noFiles "default" none
      (Except.ok (demoEnvironment 1 (some eacces)))) _ (demoEnvironment 1 (some eacces)) 1 eacces _
    (demo_loadConfig noEnv rfl none (Except.ok (demoEnvironment 1 (some eacces))))
    (Or.inl rfl) rfl rfl
  obtain ⟨-, -, q1, -, -⟩ := startup_quiet (demoWorld noEnv noFiles "default" none
      (Except.ok (demoEnvironment 1 (some eacces))))
  obtain ⟨-, q2, -, -⟩ := gate_quiet (demoWorld noEnv noFiles "default" none
      (Except.ok (demoEnvironment 1 (some eacces))))
  rw [hrun]
  refine ⟨?_, exitStatus_append _ _ _ rfl, ?_⟩
  · simp [Event.isCli]
  · simp [q1, q2, demoLoadTrace, Event.isCleanupClients]

end MainClaims

/-! ## The plugin cleanup -/

theorem register_foldl (cs : List PluginClient) (m : ClientManager) :
    cs.foldl register m =
      { m with clients := m.clients ++ cs } := by
  induction cs generalizing m with
  | nil => simp
  | cons c cs ih => simp [List.foldl_cons, ih, register]

/-- C9: after registering the clients `cs` with a fresh manager, the first cleanup makes one
termination attempt per client, the second makes none, so that two calls make exactly
`cs.length` attempts in total, and the second call returns no error. -/
theorem cleanup_twice (cs : List PluginClient) :
    (CleanupClients (cs.foldl register ClientManager.init)).1.attempts.length = cs.length ∧
    (CleanupClients (CleanupClients (cs.foldl register ClientManager.init)).1).1.attempts.length
      = cs.length ∧
    (CleanupClients (CleanupClients (cs.foldl register ClientManager.init)).1).2 = none := by
  rw [register_foldl]
  simp [CleanupClients, ClientManager.init]

end Packer
